import Mathlib

/-!
Shallow embedding of the Jules orchestrator plugin (`src/index.ts`).

The plugin tracks delegated coding tasks through a lifecycle state machine.
Its pieces, and how they are embedded here:

* `TaskManager` — a file-backed keyed store (one JSON file per task id).
  Every file is written by `saveTask`, whose path is derived from the
  record's own `id` field, so a store built by this code is exactly a list
  of task records looked up by their `id`.  We model it as `Store := List Task`
  with first-match lookup (`getTask`) and overwrite-on-save (`saveTask`).
* Timestamps are ISO-8601 strings produced by `new Date().toISOString()`;
  lexicographic order on those strings is chronological order, so we model
  them as naturals and pass the clock reading (`now`) as an explicit argument.
* Remote calls (`JulesClient`, `GithubClient`) are network effects; each
  handler takes the outcome of the remote call it performs as an
  `Except String _` argument (error = the call threw).
* The handlers (`createTask`, `approveTask`, `cancelTask`, `createPrForTask`)
  and the poller body (`pollTask`) are transcribed control-flow-faithfully:
  the thrown `Error(msg)` values are modelled as `Except.error msg` with the
  exact message strings of the source, and each handler returns the store it
  leaves behind together with its result.
-/

namespace JulesOrchestrator

/-- Task lifecycle states, mirroring the `TaskStatus` string enum of the source. -/
inductive TaskStatus
  | NEW
  | QUEUED
  | PLANNING
  | WAITING_FOR_PLAN_APPROVAL
  | RUNNING
  | WAITING_FOR_DIFF_APPROVAL
  | READY_FOR_PR
  | PR_CREATED
  | MERGED
  | CANCELLED
  | FAILED
  deriving DecidableEq

/-- Task record, mirroring the `Task` interface of the source.  The spec calls
`julesSessionId` "agentSessionId" and `githubPrUrl` "pullRequestUrl"; we keep
the source field names.  Optional fields are `Option`s, timestamps naturals. -/
structure Task where
  id : String
  title : String
  description : String
  repo : String
  status : TaskStatus
  julesSessionId : Option String
  githubPrUrl : Option String
  createdAt : Nat
  updatedAt : Nat
  error : Option String
  deriving DecidableEq

/-- The partial update (`Partial<Task>`) actually passed to `updateTask` by the
call sites of the source: only these four fields are ever supplied; `none`
means the field is absent from the update object. -/
structure TaskUpdates where
  status : Option TaskStatus := none
  julesSessionId : Option String := none
  githubPrUrl : Option String := none
  error : Option String := none
  deriving DecidableEq

/-- Semantics of the object spread `{ ...task, ...updates }`: a field present
in the update object overrides the task's field, an absent field leaves it. -/
def applyUpdates (t : Task) (u : TaskUpdates) : Task :=
  { t with
    status := u.status.getD t.status
    julesSessionId := match u.julesSessionId with
      | none => t.julesSessionId
      | some v => some v
    githubPrUrl := match u.githubPrUrl with
      | none => t.githubPrUrl
      | some v => some v
    error := match u.error with
      | none => t.error
      | some v => some v }

/-- The task store: the set of `id.json` files in the data directory.  Every
file is written by `saveTask(task)` at the path derived from `task.id`, so the
store is a list of records keyed by their own `id` field. -/
abbrev Store := List Task

/-- Drop the record stored under `id` (overwriting the file). -/
def eraseById (s : Store) (id : String) : Store :=
  s.filter (fun t => t.id != id)

/-- `TaskManager.saveTask`: persist the full record, overwriting any prior
record with the same id. -/
def saveTask (s : Store) (t : Task) : Store :=
  t :: eraseById s t.id

/-- `TaskManager.getTask`: return the record stored under `id`, or `none` when
the file does not exist.  (The well-formed-record case; corrupt files are
modelled separately by `rawGetTask` below.) -/
def getTask (s : Store) (id : String) : Option Task :=
  s.find? (fun t => t.id == id)

/-- `TaskManager.listTasks` over a store of well-formed records: every record. -/
def listTasks (s : Store) : List Task :=
  s

/-- `TaskManager.updateTask`: load the record (throwing `Task not found: id`
when absent), merge the updates over it, stamp `updatedAt` with the current
clock reading, persist, and return the merged record. -/
def updateTask (s : Store) (id : String) (u : TaskUpdates) (now : Nat) :
    Except String (Store × Task) :=
  match getTask s id with
  | none => Except.error ("Task not found: " ++ id)
  | some task =>
    let updatedTask : Task := { applyUpdates task u with updatedAt := now }
    Except.ok (saveTask s updatedTask, updatedTask)

/-- JavaScript `a || b` for an optional string `a`: `undefined` and the empty
string are falsy, every other string is truthy. -/
def jsOrElse (a : Option String) (b : String) : String :=
  match a with
  | none => b
  | some v => if v = "" then b else v

/-- JavaScript truthiness of an optional string (the `if (x)` and `!x` guards
of the source): `undefined` and the empty string are falsy. -/
def jsTruthy (a : Option String) : Bool :=
  match a with
  | none => false
  | some v => v != ""

/-- The remote-label translation table of the poller: the four mapped Jules
session states; every other label leaves the current status unchanged. -/
def mapRemoteState (current : TaskStatus) (state : String) : TaskStatus :=
  if state = "WAITING_FOR_USER_PLAN_APPROVAL" then TaskStatus.WAITING_FOR_PLAN_APPROVAL
  else if state = "WAITING_FOR_USER_DIFF_APPROVAL" then TaskStatus.WAITING_FOR_DIFF_APPROVAL
  else if state = "DONE" then TaskStatus.READY_FOR_PR
  else if state = "FAILED" then TaskStatus.FAILED
  else if state = "ERROR" then TaskStatus.FAILED
  else current

/-- The in-flight filter of the poller: `status === RUNNING || PLANNING || QUEUED`. -/
def isPolledStatus : TaskStatus → Bool
  | TaskStatus.RUNNING => true
  | TaskStatus.PLANNING => true
  | TaskStatus.QUEUED => true
  | _ => false

/-- One iteration of the `jules-poller.run` loop body for the snapshot record
`task`.  `fetch` is the outcome of `getSessionStatus` (its `state` label on
success); the `try` block swallows both a fetch failure and an `updateTask`
failure (they are only logged), leaving the store untouched. -/
def pollTask (s : Store) (task : Task) (fetch : Except String String) (now : Nat) : Store :=
  if isPolledStatus task.status then
    if jsTruthy task.julesSessionId then
      match fetch with
      | Except.error _ => s
      | Except.ok state =>
        let newStatus := mapRemoteState task.status state
        if newStatus ≠ task.status then
          match updateTask s task.id { status := some newStatus } now with
          | Except.ok (s2, _) => s2
          | Except.error _ => s
        else s
    else s
  else s

/-- A reconciliation tick restricted to the single task stored under `id`:
re-read the store (as `run` does via `listTasks`) and process the record. -/
def tickOne (s : Store) (id : String) (fetch : Except String String) (now : Nat) : Store :=
  match getTask s id with
  | none => s
  | some task => pollTask s task fetch now

/-- Gateway method `jules-orchestrator.createTask`.  `id` stands for the fresh
random id, `sessionResult` for the outcome of `julesClient.createSession`
(session id on success, thrown error message on failure), `n0` for the clock at
record construction and `n1` for the clock at the follow-up update.
`newTaskRecord` is the freshly built record in status NEW that the handler
persists before attempting session creation. -/
def newTaskRecord (id title description : String) (repoArg : Option String)
    (defaultRepo : String) (n0 : Nat) : Task :=
  { id := id, title := title, description := description
    repo := jsOrElse repoArg defaultRepo
    status := TaskStatus.NEW
    julesSessionId := none, githubPrUrl := none
    createdAt := n0, updatedAt := n0, error := none }

def createTask (s : Store) (id title description : String) (repoArg : Option String)
    (defaultRepo : String) (sessionResult : Except String String) (n0 n1 : Nat) :
    Store × Except String Task :=
  let task : Task := newTaskRecord id title description repoArg defaultRepo n0
  let s1 := saveTask s task
  match sessionResult with
  | Except.ok sessionId =>
    match updateTask s1 id { julesSessionId := some sessionId, status := some TaskStatus.PLANNING } n1 with
    | Except.error e => (s1, Except.error e)
    | Except.ok (s2, t) => (s2, Except.ok t)
  | Except.error msg =>
    match updateTask s1 id { status := some TaskStatus.FAILED, error := some msg } n1 with
    | Except.error e => (s1, Except.error e)
    | Except.ok (s2, t) => (s2, Except.ok t)

/-- Gateway method `jules-orchestrator.approveTask`.  `pa` / `da` are the
outcomes of `approvePlan` / `approveDiff`; a thrown remote error propagates to
the caller before any store write. -/
def approveTask (s : Store) (id : String) (pa da : Except String Unit) (now : Nat) :
    Store × Except String (Option Task) :=
  match getTask s id with
  | none => (s, Except.error "Task not found or no session")
  | some task =>
    if jsTruthy task.julesSessionId then
      if task.status = TaskStatus.WAITING_FOR_PLAN_APPROVAL then
        match pa with
        | Except.error e => (s, Except.error e)
        | Except.ok _ =>
          match updateTask s id { status := some TaskStatus.RUNNING } now with
          | Except.error e => (s, Except.error e)
          | Except.ok (s2, _) => (s2, Except.ok (getTask s2 id))
      else if task.status = TaskStatus.WAITING_FOR_DIFF_APPROVAL then
        match da with
        | Except.error e => (s, Except.error e)
        | Except.ok _ =>
          match updateTask s id { status := some TaskStatus.READY_FOR_PR } now with
          | Except.error e => (s, Except.error e)
          | Except.ok (s2, _) => (s2, Except.ok (getTask s2 id))
      else (s, Except.error "Task is not in a state waiting for approval")
    else (s, Except.error "Task not found or no session")

/-- Gateway method `jules-orchestrator.cancelTask`.  `remoteCancel` is the
outcome of `cancelSession`; the handler attempts it only when the task has a
session id and catches any failure (it is merely logged), so the local
transition to CANCELLED does not depend on it — hence the argument does not
influence the result.  There is no status check: any existing task is
cancelled. -/
def cancelTask (s : Store) (id : String) (_remoteCancel : Except String Unit) (now : Nat) :
    Store × Except String (Option Task) :=
  match getTask s id with
  | none => (s, Except.error "Task not found")
  | some _ =>
    match updateTask s id { status := some TaskStatus.CANCELLED } now with
    | Except.error e => (s, Except.error e)
    | Except.ok (s2, _) => (s2, Except.ok (getTask s2 id))

/-- The pull-request creation payload `GithubClient.createPr` posts to the
source-hosting API: owner/name split of the repo, title, body, head branch and
the defaulted base branch. -/
structure PrRequest where
  owner : String
  repoName : String
  title : String
  body : String
  head : String
  base : String
  deriving DecidableEq

/-- `GithubClient.createPr` up to the network call: the request it builds from
`repo`, `branch`, `title`, `body` (base defaulted to `main`). -/
def githubCreatePr (repo branch title body : String) : PrRequest :=
  let parts := repo.splitOn "/"
  { owner := parts.getD 0 "", repoName := parts.getD 1 ""
    title := title, body := body, head := branch, base := "main" }

/-- The request `createPrForTask` issues for `task`: title and body fall back
to the task's own title and description via JavaScript `||`. -/
def prRequestOf (task : Task) (branch : String) (titleArg bodyArg : Option String) : PrRequest :=
  githubCreatePr task.repo branch (jsOrElse titleArg task.title) (jsOrElse bodyArg task.description)

/-- Gateway method `jules-orchestrator.createPrForTask`.  `response` maps the
issued pull-request payload to the source-hosting API outcome (`html_url` on
success, thrown error on failure, which propagates before any store write). -/
def createPrForTask (s : Store) (id branch : String) (titleArg bodyArg : Option String)
    (response : PrRequest → Except String String) (now : Nat) :
    Store × Except String (Option Task) :=
  match getTask s id with
  | none => (s, Except.error "Task not found")
  | some task =>
    if task.status = TaskStatus.READY_FOR_PR then
      match response (prRequestOf task branch titleArg bodyArg) with
      | Except.error e => (s, Except.error e)
      | Except.ok prUrl =>
        match updateTask s id { status := some TaskStatus.PR_CREATED, githubPrUrl := some prUrl } now with
        | Except.error e => (s, Except.error e)
        | Except.ok (s2, _) => (s2, Except.ok (getTask s2 id))
    else (s, Except.error "Task is not ready for PR")

/-- A persisted byte string as far as `JSON.parse` is concerned: either it
parses to a task document or parsing throws.  We do not embed the JSON
grammar; a raw record carries exactly the information the store code branches
on. -/
inductive RawRecord
  | parseable (t : Task)
  | malformed (payload : String)
  deriving DecidableEq

/-- The raw view of the data directory: `.json` files by id, with arbitrary
(possibly corrupt) contents. -/
abbrev RawStore := List (String × RawRecord)

/-- Raw contents of the file `id.json`, if it exists. -/
def findRaw (s : RawStore) (id : String) : Option RawRecord :=
  (s.find? (fun p => p.1 == id)).map Prod.snd

/-- `TaskManager.getTask` on the raw store: `fs.existsSync` false gives `null`;
otherwise the contents go through a bare `JSON.parse`, whose exception
propagates to the caller. -/
def rawGetTask (s : RawStore) (id : String) : Except String (Option Task) :=
  match findRaw s id with
  | none => Except.ok none
  | some (RawRecord.parseable t) => Except.ok (some t)
  | some (RawRecord.malformed payload) =>
    Except.error ("Unexpected token in JSON: " ++ payload)

/-- `TaskManager.listTasks` on the raw store: each file's `JSON.parse` sits in
a `try`/`catch` that logs and skips the file, so malformed records are dropped
and the listing never fails. -/
def rawListTasks (s : RawStore) : List Task :=
  s.filterMap (fun p =>
    match p.2 with
    | RawRecord.parseable t => some t
    | RawRecord.malformed _ => none)

/-- Concrete task used by the example stores below. -/
def demoBase : Task :=
  { id := "t1", title := "fix bug", description := "improve the parser"
    repo := "org/app", status := TaskStatus.RUNNING
    julesSessionId := some "s1", githubPrUrl := none
    createdAt := 1, updatedAt := 2, error := none }

/-- A task already in the terminal state MERGED. -/
def demoMerged : Task :=
  { demoBase with status := TaskStatus.MERGED, githubPrUrl := some "https://host/org/app/pull/7" }

/-- Store holding only the merged task. -/
def demoStoreMerged : Store := [demoMerged]

/-- An in-flight task that carries no remote session id. -/
def demoNoSession : Task := { demoBase with id := "t2", julesSessionId := none }

/-- Store holding only the session-less task. -/
def demoStoreNoSession : Store := [demoNoSession]

/-- Store holding only the running task. -/
def demoStoreRunning : Store := [demoBase]

/-- A task waiting for diff approval. -/
def demoWaitingDiff : Task := { demoBase with id := "t3", status := TaskStatus.WAITING_FOR_DIFF_APPROVAL }

/-- Store holding only the diff-approval task. -/
def demoStoreWaitingDiff : Store := [demoWaitingDiff]

/-- A task ready for pull-request creation. -/
def demoReady : Task := { demoBase with id := "t4", status := TaskStatus.READY_FOR_PR }

/-- Store holding only the ready task. -/
def demoStoreReady : Store := [demoReady]

/-- A source-hosting stub that returns a fixed pull-request URL. -/
def demoResponse : PrRequest → Except String String :=
  fun _ => Except.ok "https://host/org/app/pull/7"

/-- A raw data directory with one well-formed and one corrupt file. -/
def demoRawStore : RawStore :=
  [("a", RawRecord.parseable demoBase), ("b", RawRecord.malformed "not json")]

/- ------------------------------------------------------------------ -/
/- Helper lemmas about the store and the update primitive.            -/
/- ------------------------------------------------------------------ -/

theorem getTask_saveTask_self (s : Store) (t : Task) :
    getTask (saveTask s t) t.id = some t := by
  simp [getTask, saveTask, List.find?]

theorem getTask_id (s : Store) (id : String) (t : Task) (h : getTask s id = some t) :
    t.id = id := by
  have hp := List.find?_some h
  exact eq_of_beq hp

theorem updateTask_eq_ok (s : Store) (id : String) (u : TaskUpdates) (now : Nat) (t : Task)
    (h : getTask s id = some t) :
    updateTask s id u now =
      Except.ok (saveTask s { applyUpdates t u with updatedAt := now },
                 { applyUpdates t u with updatedAt := now }) := by
  unfold updateTask
  rw [h]

theorem updateTask_getTask (s : Store) (id : String) (u : TaskUpdates) (now : Nat) (t : Task)
    (h : getTask s id = some t) :
    updateTask s id u now =
      Except.ok (saveTask s { applyUpdates t u with updatedAt := now },
                 { applyUpdates t u with updatedAt := now }) ∧
    getTask (saveTask s { applyUpdates t u with updatedAt := now }) id =
      some { applyUpdates t u with updatedAt := now } := by
  refine ⟨updateTask_eq_ok s id u now t h, ?_⟩
  have hid : t.id = id := getTask_id s id t h
  have hsave := getTask_saveTask_self s { applyUpdates t u with updatedAt := now }
  rwa [show ({ applyUpdates t u with updatedAt := now } : Task).id = id from hid] at hsave

/- ------------------------------------------------------------------ -/
/- C5 — cancel is locally authoritative.                              -/
/- ------------------------------------------------------------------ -/

/-- C5: for every existing task, the cancel command results in status
CANCELLED even when the remote session-cancel call raises an error (its
outcome is swallowed, so the whole handler result does not depend on it), and
a task without a session id — for which the remote call is skipped — still
becomes CANCELLED. -/
theorem cancel_local_authoritative (s : Store) (id : String) (t : Task)
    (rc rcFail : Except String Unit) (now : Nat) (h : getTask s id = some t) :
    cancelTask s id rc now = cancelTask s id rcFail now ∧
    ∃ t', (cancelTask s id rc now).2 = Except.ok (some t') ∧
      t'.status = TaskStatus.CANCELLED ∧ t'.updatedAt = now := by
  refine ⟨rfl, ?_⟩
  obtain ⟨hupd, hget⟩ :=
    updateTask_getTask s id { status := some TaskStatus.CANCELLED } now t h
  refine ⟨{ applyUpdates t { status := some TaskStatus.CANCELLED } with updatedAt := now },
    ?_, rfl, rfl⟩
  simp only [cancelTask, h, hupd, hget]

/-- C5 witness: cancelling the session-less task with a failing remote call
behaves exactly like cancelling it with a successful one, and yields status
CANCELLED. -/
theorem cancel_local_authoritative_witness :
    getTask demoStoreNoSession "t2" = some demoNoSession ∧
    cancelTask demoStoreNoSession "t2" (Except.error "network down") 5 =
      cancelTask demoStoreNoSession "t2" (Except.ok ()) 5 ∧
    ∃ t', (cancelTask demoStoreNoSession "t2" (Except.error "network down") 5).2 =
        Except.ok (some t') ∧
      t'.status = TaskStatus.CANCELLED ∧ t'.updatedAt = 5 :=
  ⟨rfl,
   (cancel_local_authoritative demoStoreNoSession "t2" demoNoSession
      (Except.error "network down") (Except.ok ()) 5 rfl).1,
   (cancel_local_authoritative demoStoreNoSession "t2" demoNoSession
      (Except.error "network down") (Except.ok ()) 5 rfl).2⟩

/- ------------------------------------------------------------------ -/
/- C1 — cancel and terminal states.                                   -/
/- ------------------------------------------------------------------ -/

/-- C1 counterexample: the cancel handler has no terminal-state guard.  On a
task already in the terminal state MERGED, cancel does not fail with an
InvalidState error: it succeeds, returns the task with status CANCELLED, and
mutates the stored record (status and updatedAt change). -/
theorem cancel_terminal_not_guarded_cex :
    demoMerged.status = TaskStatus.MERGED ∧
    (cancelTask demoStoreMerged "t1" (Except.ok ()) 5).2 =
      Except.ok (some { demoMerged with status := TaskStatus.CANCELLED, updatedAt := 5 }) ∧
    getTask (cancelTask demoStoreMerged "t1" (Except.ok ()) 5).1 "t1" ≠ some demoMerged := by
  refine ⟨rfl, rfl, ?_⟩
  decide

/-- C1 (amended): the cancel command transitions every existing task — in any
status, terminal states MERGED, CANCELLED and FAILED included — to CANCELLED,
refreshing updatedAt; the implementation performs no source-state check, so
cancel on a terminal task neither fails with InvalidState nor leaves the
record unchanged. -/
theorem cancel_cancels_any_existing_task (s : Store) (id : String) (t : Task)
    (rc : Except String Unit) (now : Nat) (h : getTask s id = some t) :
    ∃ t', (cancelTask s id rc now).2 = Except.ok (some t') ∧
      t'.status = TaskStatus.CANCELLED ∧ t'.updatedAt = now ∧
      getTask (cancelTask s id rc now).1 id = some t' := by
  obtain ⟨hupd, hget⟩ :=
    updateTask_getTask s id { status := some TaskStatus.CANCELLED } now t h
  refine ⟨{ applyUpdates t { status := some TaskStatus.CANCELLED } with updatedAt := now },
    ?_, rfl, rfl, ?_⟩ <;>
  simp only [cancelTask, h, hupd, hget]

/-- C1 amended witness: the merged task is cancelled all the same. -/
theorem cancel_cancels_any_existing_task_witness :
    getTask demoStoreMerged "t1" = some demoMerged ∧
    ∃ t', (cancelTask demoStoreMerged "t1" (Except.ok ()) 5).2 = Except.ok (some t') ∧
      t'.status = TaskStatus.CANCELLED ∧ t'.updatedAt = 5 ∧
      getTask (cancelTask demoStoreMerged "t1" (Except.ok ()) 5).1 "t1" = some t' :=
  ⟨rfl, cancel_cancels_any_existing_task demoStoreMerged "t1" demoMerged (Except.ok ()) 5 rfl⟩

/- ------------------------------------------------------------------ -/
/- C6 — approve dispatch and its guard.                               -/
/- ------------------------------------------------------------------ -/

/-- C6 counterexample: the claim quantifies over every task whose status is
neither waiting state, but a RUNNING task that carries no remote session id
fails with the NotFound-family error of the absent-session guard, not with the
InvalidState error; so "fails with an InvalidState error" does not hold for
every such task (the no-mutation half does hold). -/
theorem approve_invalid_state_error_cex :
    demoNoSession.status = TaskStatus.RUNNING ∧
    demoNoSession.julesSessionId = none ∧
    approveTask demoStoreNoSession "t2" (Except.ok ()) (Except.ok ()) 5 =
      (demoStoreNoSession, Except.error "Task not found or no session") ∧
    ("Task not found or no session" : String) ≠ "Task is not in a state waiting for approval" := by
  refine ⟨rfl, rfl, rfl, ?_⟩
  decide

/-- C6 (amended): for every task that carries a (truthy) remote session id,
approve on
a status that is neither WAITING_FOR_PLAN_APPROVAL nor
WAITING_FOR_DIFF_APPROVAL (for example RUNNING) fails with the InvalidState
error and leaves the store — hence the task and its updatedAt — unchanged;
from WAITING_FOR_PLAN_APPROVAL a successful remote plan-approve persists
status RUNNING, and from WAITING_FOR_DIFF_APPROVAL a successful remote
diff-approve persists status READY_FOR_PR. -/
theorem approve_dispatch_amended (s : Store) (id : String) (t : Task)
    (pa da : Except String Unit) (now : Nat)
    (h : getTask s id = some t) (hs : jsTruthy t.julesSessionId = true) :
    (t.status ≠ TaskStatus.WAITING_FOR_PLAN_APPROVAL →
     t.status ≠ TaskStatus.WAITING_FOR_DIFF_APPROVAL →
        approveTask s id pa da now =
          (s, Except.error "Task is not in a state waiting for approval")) ∧
    (t.status = TaskStatus.WAITING_FOR_PLAN_APPROVAL → pa = Except.ok () →
        ∃ t', (approveTask s id pa da now).2 = Except.ok (some t') ∧
          t'.status = TaskStatus.RUNNING ∧ t'.updatedAt = now) ∧
    (t.status = TaskStatus.WAITING_FOR_DIFF_APPROVAL → da = Except.ok () →
        ∃ t', (approveTask s id pa da now).2 = Except.ok (some t') ∧
          t'.status = TaskStatus.READY_FOR_PR ∧ t'.updatedAt = now) := by
  refine ⟨?_, ?_, ?_⟩
  · intro h1 h2
    simp only [approveTask, h, if_pos hs, if_neg h1, if_neg h2]
  · intro h1 hpa
    obtain ⟨hupd, hget⟩ :=
      updateTask_getTask s id { status := some TaskStatus.RUNNING } now t h
    refine ⟨{ applyUpdates t { status := some TaskStatus.RUNNING } with updatedAt := now },
      ?_, rfl, rfl⟩
    simp only [approveTask, h, if_pos hs, if_pos h1, hpa, hupd, hget]
  · intro h1 hda
    have h1' : t.status ≠ TaskStatus.WAITING_FOR_PLAN_APPROVAL := by
      rw [h1]; decide
    obtain ⟨hupd, hget⟩ :=
      updateTask_getTask s id { status := some TaskStatus.READY_FOR_PR } now t h
    refine ⟨{ applyUpdates t { status := some TaskStatus.READY_FOR_PR } with updatedAt := now },
      ?_, rfl, rfl⟩
    simp only [approveTask, h, if_pos hs, if_neg h1', if_pos h1, hda, hupd, hget]

/-- C6 amended witness: approve on the RUNNING task (which has a session)
fails with the InvalidState error leaving the store untouched, and approve on
the diff-approval task persists READY_FOR_PR. -/
theorem approve_dispatch_amended_witness :
    getTask demoStoreRunning "t1" = some demoBase ∧
    jsTruthy demoBase.julesSessionId = true ∧
    approveTask demoStoreRunning "t1" (Except.ok ()) (Except.ok ()) 5 =
      (demoStoreRunning, Except.error "Task is not in a state waiting for approval") ∧
    (∃ t', (approveTask demoStoreWaitingDiff "t3" (Except.ok ()) (Except.ok ()) 5).2 =
        Except.ok (some t') ∧
      t'.status = TaskStatus.READY_FOR_PR ∧ t'.updatedAt = 5) :=
  ⟨rfl, rfl,
   (approve_dispatch_amended demoStoreRunning "t1" demoBase
      (Except.ok ()) (Except.ok ()) 5 rfl rfl).1 (by decide) (by decide),
   (approve_dispatch_amended demoStoreWaitingDiff "t3" demoWaitingDiff
      (Except.ok ()) (Except.ok ()) 5 rfl rfl).2.2 rfl rfl⟩

/- ------------------------------------------------------------------ -/
/- C7 — create-pull-request guard and success path.                   -/
/- ------------------------------------------------------------------ -/

/-- C7: create-pull-request on a task not in READY_FOR_PR fails with the
InvalidState error and returns the store unchanged (so the stored record, in
particular an unset pullRequestUrl, stays exactly as it was); on a
READY_FOR_PR task whose source-hosting call succeeds, the task is persisted as
PR_CREATED with githubPrUrl set to the returned URL. -/
theorem createPr_requires_ready (s : Store) (id branch : String) (t : Task)
    (titleArg bodyArg : Option String) (response : PrRequest → Except String String)
    (now : Nat) (h : getTask s id = some t) :
    (t.status ≠ TaskStatus.READY_FOR_PR →
        createPrForTask s id branch titleArg bodyArg response now =
          (s, Except.error "Task is not ready for PR")) ∧
    (∀ url, t.status = TaskStatus.READY_FOR_PR →
        response (prRequestOf t branch titleArg bodyArg) = Except.ok url →
        ∃ t', (createPrForTask s id branch titleArg bodyArg response now).2 =
            Except.ok (some t') ∧
          t'.status = TaskStatus.PR_CREATED ∧ t'.githubPrUrl = some url ∧
          t'.updatedAt = now) := by
  refine ⟨?_, ?_⟩
  · intro h1
    simp only [createPrForTask, h, if_neg h1]
  · intro url h1 hresp
    obtain ⟨hupd, hget⟩ :=
      updateTask_getTask s id
        { status := some TaskStatus.PR_CREATED, githubPrUrl := some url } now t h
    refine ⟨{ applyUpdates t { status := some TaskStatus.PR_CREATED, githubPrUrl := some url }
        with updatedAt := now }, ?_, rfl, rfl, rfl⟩
    simp only [createPrForTask, h, if_pos h1, hresp, hupd, hget]

/-- C7 witness: the merged task is rejected with the store unchanged, while
the ready task ends PR_CREATED carrying the URL the stub returned. -/
theorem createPr_requires_ready_witness :
    getTask demoStoreMerged "t1" = some demoMerged ∧
    createPrForTask demoStoreMerged "t1" "agent/s1" none none demoResponse 5 =
      (demoStoreMerged, Except.error "Task is not ready for PR") ∧
    (∃ t', (createPrForTask demoStoreReady "t4" "agent/s1" none none demoResponse 5).2 =
        Except.ok (some t') ∧
      t'.status = TaskStatus.PR_CREATED ∧
      t'.githubPrUrl = some "https://host/org/app/pull/7" ∧ t'.updatedAt = 5) :=
  ⟨rfl,
   (createPr_requires_ready demoStoreMerged "t1" "agent/s1" demoMerged none none
      demoResponse 5 rfl).1 (by decide),
   (createPr_requires_ready demoStoreReady "t4" "agent/s1" demoReady none none
      demoResponse 5 rfl).2 "https://host/org/app/pull/7" rfl rfl⟩

/- ------------------------------------------------------------------ -/
/- C9 — title and body defaults.                                      -/
/- ------------------------------------------------------------------ -/

/-- C9: when the optional title (resp. body) argument is not supplied, the
pull-request payload the handler sends carries the task's own title (resp.
description); consequently invoking the handler with both arguments omitted
behaves exactly like invoking it with the task's title and description. -/
theorem createPr_defaults_title_body (s : Store) (id branch : String) (t : Task)
    (titleArg bodyArg : Option String) (response : PrRequest → Except String String)
    (now : Nat) (h : getTask s id = some t) :
    (prRequestOf t branch none bodyArg).title = t.title ∧
    (prRequestOf t branch titleArg none).body = t.description ∧
    createPrForTask s id branch none none response now =
      createPrForTask s id branch (some t.title) (some t.description) response now := by
  refine ⟨rfl, rfl, ?_⟩
  have hreq : prRequestOf t branch none none =
      prRequestOf t branch (some t.title) (some t.description) := by
    simp [prRequestOf, jsOrElse, ite_self]
  simp only [createPrForTask, h, hreq]

/-- C9 witness: on the ready task the defaulted payload carries its title and
description, and omitting both arguments equals supplying them explicitly. -/
theorem createPr_defaults_title_body_witness :
    getTask demoStoreReady "t4" = some demoReady ∧
    (prRequestOf demoReady "agent/s1" none none).title = demoReady.title ∧
    (prRequestOf demoReady "agent/s1" none none).body = demoReady.description ∧
    createPrForTask demoStoreReady "t4" "agent/s1" none none demoResponse 5 =
      createPrForTask demoStoreReady "t4" "agent/s1"
        (some demoReady.title) (some demoReady.description) demoResponse 5 :=
  ⟨rfl,
   (createPr_defaults_title_body demoStoreReady "t4" "agent/s1" demoReady none none
      demoResponse 5 rfl).1,
   (createPr_defaults_title_body demoStoreReady "t4" "agent/s1" demoReady none none
      demoResponse 5 rfl).2.1,
   (createPr_defaults_title_body demoStoreReady "t4" "agent/s1" demoReady none none
      demoResponse 5 rfl).2.2⟩

/- ------------------------------------------------------------------ -/
/- C3 — create never returns NEW and never fails outward.             -/
/- ------------------------------------------------------------------ -/

/-- C3: for every input, createTask returns (never throws) a persisted task
whose status is PLANNING with the returned session id recorded when session
creation succeeds, and FAILED with the failure message recorded when it fails;
the returned task is never in status NEW. -/
theorem createTask_returns_planning_or_failed (s : Store) (id title description : String)
    (repoArg : Option String) (defaultRepo : String) (sessionResult : Except String String)
    (n0 n1 : Nat) :
    ∃ s2 t, createTask s id title description repoArg defaultRepo sessionResult n0 n1 =
        (s2, Except.ok t) ∧
      getTask s2 id = some t ∧ t.status ≠ TaskStatus.NEW ∧
      (∀ sid, sessionResult = Except.ok sid →
          t.status = TaskStatus.PLANNING ∧ t.julesSessionId = some sid) ∧
      (∀ msg, sessionResult = Except.error msg →
          t.status = TaskStatus.FAILED ∧ t.error = some msg) := by
  have hsave : getTask (saveTask s (newTaskRecord id title description repoArg defaultRepo n0))
      id = some (newTaskRecord id title description repoArg defaultRepo n0) :=
    getTask_saveTask_self s _
  cases sessionResult with
  | ok sid =>
    obtain ⟨hupd, hget⟩ := updateTask_getTask _ id
      { julesSessionId := some sid, status := some TaskStatus.PLANNING } n1 _ hsave
    refine ⟨_, _, ?_, hget, ?_, ?_, ?_⟩
    · simp only [createTask, hupd]
    · intro hc
      exact TaskStatus.noConfusion hc
    · intro sid' heq
      cases heq
      exact ⟨rfl, rfl⟩
    · intro msg heq
      exact Except.noConfusion heq
  | error msg =>
    obtain ⟨hupd, hget⟩ := updateTask_getTask _ id
      { status := some TaskStatus.FAILED, error := some msg } n1 _ hsave
    refine ⟨_, _, ?_, hget, ?_, ?_, ?_⟩
    · simp only [createTask, hupd]
    · intro hc
      exact TaskStatus.noConfusion hc
    · intro sid' heq
      exact Except.noConfusion heq
    · intro msg' heq
      cases heq
      exact ⟨rfl, rfl⟩

/-- C3 witness: the theorem instantiated at a concrete successful creation. -/
theorem createTask_returns_planning_or_failed_witness :
    ∃ s2 t, createTask [] "t9" "fix bug" "improve the parser" none "org/app"
        (Except.ok "s1") 3 4 = (s2, Except.ok t) ∧
      getTask s2 "t9" = some t ∧ t.status ≠ TaskStatus.NEW ∧
      (∀ sid, (Except.ok "s1" : Except String String) = Except.ok sid →
          t.status = TaskStatus.PLANNING ∧ t.julesSessionId = some sid) ∧
      (∀ msg, (Except.ok "s1" : Except String String) = Except.error msg →
          t.status = TaskStatus.FAILED ∧ t.error = some msg) :=
  createTask_returns_planning_or_failed [] "t9" "fix bug" "improve the parser" none
    "org/app" (Except.ok "s1") 3 4

/- ------------------------------------------------------------------ -/
/- C2 — updatedAt discipline.                                         -/
/- ------------------------------------------------------------------ -/

/-- C2: updateTask stamps updatedAt with the clock reading of the mutation
(this is the only operation of the embedding that changes updatedAt of a
stored record: every handler write of an existing record goes through it, as
in the source), so under a strictly advancing clock two successive mutations
of the same task produce strictly increasing updatedAt values, createdAt is
preserved, and — provided the clock is not behind the task's creation time —
updatedAt stays at or above createdAt. -/
theorem updateTask_advances_updatedAt (s : Store) (id : String) (u1 u2 : TaskUpdates)
    (n1 n2 : Nat) (hmono : n1 < n2) (s1 : Store) (t1 : Task) (s2 : Store) (t2 : Task)
    (h1 : updateTask s id u1 n1 = Except.ok (s1, t1))
    (h2 : updateTask s1 id u2 n2 = Except.ok (s2, t2))
    (hclock : t1.createdAt ≤ n1) :
    t1.updatedAt = n1 ∧ t2.updatedAt = n2 ∧ t1.updatedAt < t2.updatedAt ∧
    t2.createdAt = t1.createdAt ∧
    t1.createdAt ≤ t1.updatedAt ∧ t2.createdAt ≤ t2.updatedAt := by
  cases hg : getTask s id with
  | none =>
    rw [updateTask, hg] at h1
    cases h1
  | some t0 =>
    obtain ⟨hupd1, hget1⟩ := updateTask_getTask s id u1 n1 t0 hg
    rw [hupd1] at h1
    injection h1 with hp
    injection hp with hsA htA
    subst hsA
    subst htA
    obtain ⟨hupd2, _⟩ := updateTask_getTask _ id u2 n2 _ hget1
    rw [hupd2] at h2
    injection h2 with hp2
    injection hp2 with hsB htB
    subst hsB
    subst htB
    exact ⟨rfl, rfl, hmono, rfl, hclock, le_trans hclock (le_of_lt hmono)⟩

/-- C2 witness: two concrete successive updates at clock readings 3 and 4. -/
theorem updateTask_advances_updatedAt_witness :
    (3 : Nat) < 4 ∧
    updateTask [demoBase] "t1" { status := some TaskStatus.QUEUED } 3 =
      Except.ok ([{ demoBase with status := TaskStatus.QUEUED, updatedAt := 3 }],
                 { demoBase with status := TaskStatus.QUEUED, updatedAt := 3 }) ∧
    updateTask [{ demoBase with status := TaskStatus.QUEUED, updatedAt := 3 }] "t1"
        { status := some TaskStatus.RUNNING } 4 =
      Except.ok ([{ demoBase with status := TaskStatus.RUNNING, updatedAt := 4 }],
                 { demoBase with status := TaskStatus.RUNNING, updatedAt := 4 }) ∧
    ({ demoBase with status := TaskStatus.QUEUED, updatedAt := 3 } : Task).createdAt ≤ 3 ∧
    (({ demoBase with status := TaskStatus.QUEUED, updatedAt := 3 } : Task).updatedAt = 3 ∧
     ({ demoBase with status := TaskStatus.RUNNING, updatedAt := 4 } : Task).updatedAt = 4 ∧
     ({ demoBase with status := TaskStatus.QUEUED, updatedAt := 3 } : Task).updatedAt <
       ({ demoBase with status := TaskStatus.RUNNING, updatedAt := 4 } : Task).updatedAt ∧
     ({ demoBase with status := TaskStatus.RUNNING, updatedAt := 4 } : Task).createdAt =
       ({ demoBase with status := TaskStatus.QUEUED, updatedAt := 3 } : Task).createdAt ∧
     ({ demoBase with status := TaskStatus.QUEUED, updatedAt := 3 } : Task).createdAt ≤
       ({ demoBase with status := TaskStatus.QUEUED, updatedAt := 3 } : Task).updatedAt ∧
     ({ demoBase with status := TaskStatus.RUNNING, updatedAt := 4 } : Task).createdAt ≤
       ({ demoBase with status := TaskStatus.RUNNING, updatedAt := 4 } : Task).updatedAt) :=
  ⟨by decide, rfl, rfl, by decide,
   updateTask_advances_updatedAt [demoBase] "t1"
     { status := some TaskStatus.QUEUED } { status := some TaskStatus.RUNNING } 3 4
     (by decide) _ _ _ _ rfl rfl (by decide)⟩

/- ------------------------------------------------------------------ -/
/- Helper lemmas about the reconciliation step.                       -/
/- ------------------------------------------------------------------ -/

theorem mapRemoteState_cases (c : TaskStatus) (l : String) :
    mapRemoteState c l = c ∨ isPolledStatus (mapRemoteState c l) = false := by
  unfold mapRemoteState
  split_ifs <;> first | exact Or.inl rfl | exact Or.inr rfl

theorem pollTask_no_write (s : Store) (t : Task) (lbl : String) (now : Nat)
    (h : mapRemoteState t.status lbl = t.status) :
    pollTask s t (Except.ok lbl) now = s := by
  by_cases hp : isPolledStatus t.status = true
  · by_cases hj : jsTruthy t.julesSessionId = true
    · simp only [pollTask, if_pos hp, if_pos hj, if_neg (not_not_intro h)]
    · simp only [pollTask, if_pos hp, if_neg hj]
  · simp only [pollTask, if_neg hp]

theorem tickOne_cases (s : Store) (id : String) (fetch : Except String String)
    (t : Task) (hg : getTask s id = some t) :
    (∀ now, tickOne s id fetch now = s) ∨
    ∃ lbl, fetch = Except.ok lbl ∧ mapRemoteState t.status lbl ≠ t.status ∧
      ∀ now, tickOne s id fetch now =
        saveTask s { applyUpdates t { status := some (mapRemoteState t.status lbl) }
          with updatedAt := now } := by
  have hid : t.id = id := getTask_id s id t hg
  by_cases hp : isPolledStatus t.status = true
  · by_cases hj : jsTruthy t.julesSessionId = true
    · cases fetch with
      | error e =>
        left
        intro now
        simp only [tickOne, hg, pollTask, if_pos hp, if_pos hj]
      | ok lbl =>
        by_cases hm : mapRemoteState t.status lbl = t.status
        · left
          intro now
          simp only [tickOne, hg]
          exact pollTask_no_write s t lbl now hm
        · right
          refine ⟨lbl, rfl, hm, ?_⟩
          intro now
          have hgid : getTask s t.id = some t := by rw [hid]; exact hg
          have hupd := updateTask_eq_ok s t.id
            { status := some (mapRemoteState t.status lbl) } now t hgid
          simp only [tickOne, hg, pollTask, if_pos hp, if_pos hj, if_pos hm, hupd]
    · left
      intro now
      simp only [tickOne, hg, pollTask, if_pos hp, if_neg hj]
  · left
    intro now
    simp only [tickOne, hg, pollTask, if_neg hp]

theorem tickOne_idem (s : Store) (id : String) (fetch : Except String String) (n1 n2 : Nat) :
    tickOne (tickOne s id fetch n1) id fetch n2 = tickOne s id fetch n1 := by
  cases hg : getTask s id with
  | none => simp only [tickOne, hg]
  | some t =>
    have hid : t.id = id := getTask_id s id t hg
    rcases tickOne_cases s id fetch t hg with h1 | ⟨lbl, hf, hm, h1⟩
    · rw [h1 n1]
      exact h1 n2
    · rw [h1 n1]
      subst hf
      have hget2 : getTask (saveTask s { applyUpdates t
          { status := some (mapRemoteState t.status lbl) } with updatedAt := n1 }) id =
          some { applyUpdates t { status := some (mapRemoteState t.status lbl) }
            with updatedAt := n1 } := by
        have hx := getTask_saveTask_self s { applyUpdates t
          { status := some (mapRemoteState t.status lbl) } with updatedAt := n1 }
        rwa [show ({ applyUpdates t { status := some (mapRemoteState t.status lbl) }
          with updatedAt := n1 } : Task).id = id from hid] at hx
      have hnp : isPolledStatus (mapRemoteState t.status lbl) = false := by
        rcases mapRemoteState_cases t.status lbl with he | hn
        · exact absurd he hm
        · exact hn
      have hnot : ¬ (isPolledStatus
          (applyUpdates t { status := some (mapRemoteState t.status lbl) }).status = true) := by
        have hst : (applyUpdates t { status := some (mapRemoteState t.status lbl) }).status
            = mapRemoteState t.status lbl := rfl
        rw [hst, hnp]
        exact Bool.false_ne_true
      simp only [tickOne, hget2, pollTask, if_neg hnot]

/- ------------------------------------------------------------------ -/
/- C4 — reconciliation is idempotent.                                 -/
/- ------------------------------------------------------------------ -/

/-- C4: when the status mapped from the fetched remote label equals the
current status — which covers every label outside the four mapped values — the
reconciliation step performs no store write at all; consequently a second tick
against the unchanged remote state reproduces the first tick's store exactly,
so updatedAt after the second tick equals updatedAt after the first. -/
theorem reconcile_idempotent (s : Store) (id : String) (fetch : Except String String)
    (n1 n2 : Nat) :
    (∀ t lbl, getTask s id = some t → fetch = Except.ok lbl →
        mapRemoteState t.status lbl = t.status → tickOne s id fetch n1 = s) ∧
    tickOne (tickOne s id fetch n1) id fetch n2 = tickOne s id fetch n1 := by
  refine ⟨?_, tickOne_idem s id fetch n1 n2⟩
  intro t lbl hg hf hm
  subst hf
  simp only [tickOne, hg]
  exact pollTask_no_write s t lbl n1 hm

/-- C4 witness: an unmapped label writes nothing, and a DONE tick applied
twice (at clock readings 5 then 6) equals the single tick. -/
theorem reconcile_idempotent_witness :
    getTask demoStoreRunning "t1" = some demoBase ∧
    mapRemoteState demoBase.status "IN_PROGRESS" = demoBase.status ∧
    tickOne demoStoreRunning "t1" (Except.ok "IN_PROGRESS") 5 = demoStoreRunning ∧
    tickOne (tickOne demoStoreRunning "t1" (Except.ok "DONE") 5) "t1" (Except.ok "DONE") 6 =
      tickOne demoStoreRunning "t1" (Except.ok "DONE") 5 :=
  ⟨rfl, rfl,
   (reconcile_idempotent demoStoreRunning "t1" (Except.ok "IN_PROGRESS") 5 6).1
     demoBase "IN_PROGRESS" rfl rfl rfl,
   (reconcile_idempotent demoStoreRunning "t1" (Except.ok "DONE") 5 6).2⟩

/- ------------------------------------------------------------------ -/
/- C8 — reconciliation writes touch only status and updatedAt.        -/
/- ------------------------------------------------------------------ -/

/-- C8: whatever a reconciliation step does to the task stored under `id`, the
record afterwards agrees with the record before on every field except status
and updatedAt: id, title, description, repo, julesSessionId, createdAt,
githubPrUrl (the pullRequestUrl of the spec) and even error are unchanged. -/
theorem reconcile_frame (s : Store) (id : String) (t tAfter : Task)
    (fetch : Except String String) (now : Nat)
    (h : getTask s id = some t)
    (h2 : getTask (tickOne s id fetch now) id = some tAfter) :
    tAfter.id = t.id ∧ tAfter.title = t.title ∧ tAfter.description = t.description ∧
    tAfter.repo = t.repo ∧ tAfter.julesSessionId = t.julesSessionId ∧
    tAfter.createdAt = t.createdAt ∧ tAfter.githubPrUrl = t.githubPrUrl ∧
    tAfter.error = t.error := by
  have hid : t.id = id := getTask_id s id t h
  rcases tickOne_cases s id fetch t h with h1 | ⟨lbl, hf, hm, h1⟩
  · rw [h1 now, h] at h2
    injection h2 with he
    subst he
    exact ⟨rfl, rfl, rfl, rfl, rfl, rfl, rfl, rfl⟩
  · rw [h1 now] at h2
    have hget2 : getTask (saveTask s { applyUpdates t
        { status := some (mapRemoteState t.status lbl) } with updatedAt := now }) id =
        some { applyUpdates t { status := some (mapRemoteState t.status lbl) }
          with updatedAt := now } := by
      have hx := getTask_saveTask_self s { applyUpdates t
        { status := some (mapRemoteState t.status lbl) } with updatedAt := now }
      rwa [show ({ applyUpdates t { status := some (mapRemoteState t.status lbl) }
        with updatedAt := now } : Task).id = id from hid] at hx
    rw [hget2] at h2
    injection h2 with he
    subst he
    exact ⟨rfl, rfl, rfl, rfl, rfl, rfl, rfl, rfl⟩

/-- C8 witness: the DONE transition of the running task changes status (to
READY_FOR_PR) and updatedAt only. -/
theorem reconcile_frame_witness :
    getTask demoStoreRunning "t1" = some demoBase ∧
    getTask (tickOne demoStoreRunning "t1" (Except.ok "DONE") 5) "t1" =
      some { demoBase with status := TaskStatus.READY_FOR_PR, updatedAt := 5 } ∧
    (({ demoBase with status := TaskStatus.READY_FOR_PR, updatedAt := 5 } : Task).id = demoBase.id ∧
     ({ demoBase with status := TaskStatus.READY_FOR_PR, updatedAt := 5 } : Task).title = demoBase.title ∧
     ({ demoBase with status := TaskStatus.READY_FOR_PR, updatedAt := 5 } : Task).description = demoBase.description ∧
     ({ demoBase with status := TaskStatus.READY_FOR_PR, updatedAt := 5 } : Task).repo = demoBase.repo ∧
     ({ demoBase with status := TaskStatus.READY_FOR_PR, updatedAt := 5 } : Task).julesSessionId = demoBase.julesSessionId ∧
     ({ demoBase with status := TaskStatus.READY_FOR_PR, updatedAt := 5 } : Task).createdAt = demoBase.createdAt ∧
     ({ demoBase with status := TaskStatus.READY_FOR_PR, updatedAt := 5 } : Task).githubPrUrl = demoBase.githubPrUrl ∧
     ({ demoBase with status := TaskStatus.READY_FOR_PR, updatedAt := 5 } : Task).error = demoBase.error) :=
  ⟨rfl, rfl,
   reconcile_frame demoStoreRunning "t1" demoBase
     { demoBase with status := TaskStatus.READY_FOR_PR, updatedAt := 5 }
     (Except.ok "DONE") 5 rfl rfl⟩

/- ------------------------------------------------------------------ -/
/- C10 — malformed records: get throws, list skips.                   -/
/- ------------------------------------------------------------------ -/

/-- C10: when the file stored under `id` exists but does not parse, the
store's get — and hence the getTask gateway method, which returns it directly
— surfaces the parse error instead of the record or a not-found signal, while
the listing never fails: it returns exactly the parseable records of the
directory, skipping malformed ones. -/
theorem rawGetTask_propagates_parse_error (s : RawStore) (id payload : String)
    (h : findRaw s id = some (RawRecord.malformed payload)) :
    rawGetTask s id = Except.error ("Unexpected token in JSON: " ++ payload) ∧
    ∀ t : Task, t ∈ rawListTasks s ↔ ∃ p ∈ s, p.2 = RawRecord.parseable t := by
  constructor
  · unfold rawGetTask
    rw [h]
  · intro t
    unfold rawListTasks
    rw [List.mem_filterMap]
    constructor
    · rintro ⟨p, hp, he⟩
      refine ⟨p, hp, ?_⟩
      rcases p with ⟨k, r⟩
      cases r with
      | parseable t0 =>
        cases he
        rfl
      | malformed q => exact Option.noConfusion he
    · rintro ⟨p, hp, he⟩
      refine ⟨p, hp, ?_⟩
      rw [he]

/-- C10 witness: in a directory with one well-formed and one corrupt file,
get on the corrupt id yields the parse error and the listing keeps exactly
the well-formed record. -/
theorem rawGetTask_propagates_parse_error_witness :
    findRaw demoRawStore "b" = some (RawRecord.malformed "not json") ∧
    rawGetTask demoRawStore "b" = Except.error ("Unexpected token in JSON: " ++ "not json") ∧
    (demoBase ∈ rawListTasks demoRawStore ↔
      ∃ p ∈ demoRawStore, p.2 = RawRecord.parseable demoBase) :=
  ⟨rfl,
   (rawGetTask_propagates_parse_error demoRawStore "b" "not json" rfl).1,
   (rawGetTask_propagates_parse_error demoRawStore "b" "not json" rfl).2 demoBase⟩

end JulesOrchestrator
